import Mathlib

/-!
Shallow embedding of the self-update client in `yt_dlp/update.py`
(class `Updater` and its helpers), together with theorems checking the
natural-language specification against it.

Modelling conventions:
* Python strings are Lean `String`s; `bytes.decode().splitlines()` results are
  passed in as `List String` (network content is an external collaborator).
* A Python function that can raise an uncaught exception is modelled with
  `Option` (`none` = the exception propagates).
* `re.match` is an external collaborator and is passed as an oracle
  `String → String → Bool` (pattern, string); `reMatchLinux` below is a
  concrete faithful instance of it for the pattern `.*-linux.*`.
-/

namespace UpdateSpec

/-- Decimal digit test, written over `Char.toNat` so that it reduces in the
kernel. -/
def isDigitChar (c : Char) : Bool :=
  48 ≤ c.toNat && c.toNat ≤ 57

/-- Python `int` on a string of digits; `none` when the string is empty or
holds a non-digit (`int` raises `ValueError` there). -/
def parseNatDigits (cs : List Char) : Option Nat :=
  if cs ≠ [] && cs.all isDigitChar then
    some (cs.foldl (fun acc c => acc * 10 + (c.toNat - 48)) 0)
  else none

/-- Split a character list on every occurrence of `c` (Python `str.split`
with an explicit separator: empty pieces are kept). -/
def splitChar (c : Char) : List Char → List (List Char)
  | [] => [[]]
  | x :: xs =>
    if x = c then [] :: splitChar c xs
    else
      match splitChar c xs with
      | ys :: rest => (x :: ys) :: rest
      | [] => [[x]]

/-- Modelled from the spec: `version_tuple` from `.utils` (the utils module is
not under the provided sources). The spec describes version comparison as
"dotted-numeric tuple comparison"; every dot-separated component is parsed as
a number, and a component that is not a plain number raises `ValueError`
(the source itself catches `ValueError` from `version_tuple` at
`update.py:173`), modelled as `none`. -/
def version_tuple (s : String) : Option (List Nat) :=
  (splitChar '.' s.toList).mapM parseNatDigits

/-- Python tuple comparison on numeric tuples: lexicographic, a strict prefix
is smaller. -/
def tupleLt : List Nat → List Nat → Bool
  | [], [] => false
  | [], _ :: _ => true
  | _ :: _, [] => false
  | a :: as, b :: bs => a < b || (a == b && tupleLt as bs)

/-- Python `str.rpartition`, core on character lists: splits around the LAST
occurrence of `c`; `none` when `c` does not occur. -/
def rpartitionCore (c : Char) : List Char → Option (List Char × List Char)
  | [] => none
  | x :: xs =>
    match rpartitionCore c xs with
    | some (pre, post) => some (x :: pre, post)
    | none => if x = c then some ([], xs) else none

/-- Python `s.rpartition(c)`: `(before, sep, after)` at the last occurrence of
`c`, or `("", "", s)` when `c` does not occur. -/
def rpartition (s : String) (c : Char) : String × String × String :=
  match rpartitionCore c s.toList with
  | some (pre, post) => (String.mk pre, String.mk [c], String.mk post)
  | none => ("", "", s)

/-- Split off everything up to the first occurrence of `c`; `none` when `c`
does not occur. -/
def splitOnceChar (c : Char) : List Char → Option (List Char × List Char)
  | [] => none
  | x :: xs =>
    if x = c then some ([], xs)
    else (splitOnceChar c xs).map (fun p => (x :: p.1, p.2))

/-- Python `s.split(' ', 2)`: split on single spaces, at most twice
(`update.py:167`). -/
def pySplitSpace2 (s : String) : List String :=
  match splitOnceChar ' ' s.toList with
  | none => [s]
  | some (a, rest) =>
    match splitOnceChar ' ' rest with
    | none => [String.mk a, String.mk rest]
    | some (b, r) => [String.mk a, String.mk b, String.mk r]

/-- `sub` occurs somewhere in the list. -/
def hasSubList (sub : List Char) : List Char → Bool
  | [] => sub.isEmpty
  | x :: xs => List.isPrefixOf sub (x :: xs) || hasSubList sub xs

/-- `sub` occurs somewhere in `s`. -/
def containsSubstr (s sub : String) : Bool :=
  hasSubList sub.toList s.toList

/-- Python `s.startswith(pre)`. -/
def pyStartsWith (s pre : String) : Bool :=
  List.isPrefixOf pre.toList s.toList

/-- Python `s[n:]`. -/
def dropChars (s : String) (n : Nat) : String :=
  String.mk (s.toList.drop n)

/-- Concrete model of `re.match(pattern, identifier)` for the one pattern the
spec's lock-rule examples use: `.*-linux.*` matches (from the start, as
`re.match` does) exactly the strings containing `-linux`. Any other pattern is
outside this model and reported as no match. -/
def reMatchLinux (pattern identifier : String) : Bool :=
  if pattern = ".*-linux.*" then containsSubstr identifier "-linux" else false

/-- `UPDATE_SOURCES` keys (`update.py:27`): the known channel names. -/
def UPDATE_SOURCES_keys : List String := ["stable", "nightly"]

/-- `WARN_BEFORE_TAG = (2023, 3, 2)` (`update.py:31`); a non-empty tuple, so
its Python truthiness test is always true. -/
def WARN_BEFORE_TAG : List Nat := [2023, 3, 2]

/-- `API_BASE_URL` (`update.py:32`). -/
def API_BASE_URL : String := "https://api.github.com/repos"

/-- The target fields the constructor computes (`update.py:122-143`):
`self._target_channel`, `self._target_tag`, `self._exact`. An explicit tag is
stored with the GitHub API prefix, as `tags/<tag>`; `None` and `''` behave
identically in the falsiness tests that follow the parse, so the missing tag
is modelled as `""`. -/
structure ParsedTarget where
  target_channel : String
  target_tag : String
  exact : Bool
deriving Repr, DecidableEq

/-- `Updater.__init__` target parsing (`update.py:122-143`): split on the last
`@`; a bare known channel name becomes `channel@` rather than `@tag`; an empty
channel defaults to the build's `CHANNEL`; a missing tag becomes non-exact
`latest`; any other tag is prefixed with `tags/`. -/
def parseTarget (CHANNEL : String) (targetOpt : Option String) : ParsedTarget :=
  let target := targetOpt.getD CHANNEL
  let parts := rpartition target '@'
  let chan0 := parts.1
  let sep := parts.2.1
  let tag0 := parts.2.2
  let chan1 := if sep = "" ∧ UPDATE_SOURCES_keys.contains tag0 then tag0 else chan0
  let tag1 := if sep = "" ∧ UPDATE_SOURCES_keys.contains tag0 then "" else tag0
  let chan2 := if chan1 = "" then CHANNEL else chan1
  if tag1 = "" then ⟨chan2, "latest", false⟩
  else if tag1 ≠ "latest" then ⟨chan2, "tags/" ++ tag1, true⟩
  else ⟨chan2, tag1, true⟩

/-- Python regex `(\d+\.?)*\d+` full match (`update.py:145`), stated
semantically: a non-empty sequence of dot-separated, non-empty, all-digit
components (the regex forbids a leading or trailing dot and empty
components). -/
def numericDotted (s : String) : Bool :=
  s ≠ "" && (splitChar '.' s.toList).all (fun part => part ≠ [] && part.all isDigitChar)

/-- The downgrade-warning check at the end of `Updater.__init__`
(`update.py:145-147`). The regex is matched against `self._target_tag[5:]`
(the tag with its `tags/` prefix removed) but `version_tuple` is applied to
the whole of `self._target_tag`. Result: `some b` when the constructor
completes (`b` = the warning was emitted), `none` when `version_tuple` raises
an uncaught `ValueError`. `WARN_BEFORE_TAG` is a non-empty tuple, so its
truthiness guard is constantly true. -/
def init_warn_check (target_tag : String) : Option Bool :=
  if numericDotted (dropChars target_tag 5) then
    match version_tuple target_tag with
    | none => none
    | some vt => some (tupleLt vt WARN_BEFORE_TAG)
  else some false

/-- `Updater._version_compare` (`update.py:151-156`): `some false` outright
when the build channel differs from the target channel (before any tuple
parsing); otherwise tuple equality in exact mode and `a >= b` in non-exact
mode; `none` when `version_tuple` raises. -/
def version_compare (CHANNEL target_channel : String) (exact : Bool)
    (a b : String) : Option Bool :=
  if CHANNEL ≠ target_channel then some false
  else do
    let ta ← version_tuple a
    let tb ← version_tuple b
    pure (if exact then ta == tb else ! tupleLt ta tb)

/-- `Updater.has_update` (`update.py:217-219`):
`not self._version_compare(self.current_version, self.new_version)`. -/
def has_update (CHANNEL target_channel : String) (exact : Bool)
    (current newVersion : String) : Option Bool :=
  (version_compare CHANNEL target_channel exact current newVersion).map (! ·)

/-- `Updater._get_version_info` URL construction (`update.py:179-187`): the
method receives a `tag` argument (and is memoized on it by `cached_method`),
but the URL it fetches is built from `self._target_tag`, not from `tag`. -/
def get_version_info_url (target_repo target_tag tag : String) : String :=
  API_BASE_URL ++ "/" ++ target_repo ++ "/releases/" ++ target_tag

/-- The loop of `Updater._tag` over the decoded lines of the `_update_spec`
asset (`update.py:164-177`). Per line: skip unless it starts with `lock `;
split on single spaces at most twice (fewer than three parts raises an
uncaught unpacking `ValueError`, modelled as `none`); if the pattern matches
the identifier, then for an explicit target tag the rule is skipped
(`continue`) only when both tags parse and the lock tag is not strictly lower
than the requested tag — a `ValueError` from either `version_tuple` call is
caught by the bare ValueError handler, after which control falls through to
the return of the locked tag with its tags prefix; with no explicit target
tag any match returns at once. Falling off the loop returns the target tag
unchanged. -/
def tagLoop (rmatch : String → String → Bool) (identifier target_tag : String) :
    List String → Option String
  | [] => some target_tag
  | line :: rest =>
    if pyStartsWith line "lock " then
      match pySplitSpace2 line with
      | [_, tag, pattern] =>
        if rmatch pattern identifier then
          if target_tag ≠ "latest" then
            match version_tuple tag, version_tuple (dropChars target_tag 5) with
            | some vt, some vtt =>
              if tupleLt vt vtt then some ("tags/" ++ tag)
              else tagLoop rmatch identifier target_tag rest
            | _, _ => some ("tags/" ++ tag)
          else some ("tags/" ++ tag)
        else tagLoop rmatch identifier target_tag rest
      | _ => none
    else tagLoop rmatch identifier target_tag rest

/-- `Updater._tag` (`update.py:158-177`): when `_version_compare` of the
current and latest versions already holds, the target tag is returned
unchanged; otherwise the `_update_spec` lines are scanned by `tagLoop`.
`specLines` stands for `self._download('_update_spec', 'latest')
.decode().splitlines()`; `none` models an uncaught exception. -/
def tag_method (CHANNEL target_channel : String) (exact : Bool)
    (current_version latest_version : String)
    (rmatch : String → String → Bool) (identifier : String)
    (specLines : List String) (target_tag : String) : Option String :=
  match version_compare CHANNEL target_channel exact current_version latest_version with
  | none => none
  | some true => some target_tag
  | some false => tagLoop rmatch identifier target_tag specLines

/-- The return behaviour of a Python call: a returned value (for
`Updater.update`, either `None` or `True`, hence `Option Bool`) or an uncaught
exception. -/
inductive PyRet where
  | val : Option Bool → PyRet
  | raised : PyRet
deriving Repr, DecidableEq

/-- The outcomes of the external, effectful collaborators used by
`Updater.update` (`update.py:289-365`), fixed in advance as oracles:
each field tells how the corresponding call would turn out if reached.
`download` is `none` when `self._download` raises, else the downloaded bytes
(modelled as a `String`); `releaseHash` is `none` when computing
`self.release_hash` raises (missing manifest or missing entry); `sha256hex`
is the digest oracle for the downloaded bytes. -/
structure UpdateEnv where
  check_ok : Bool
  nonUpdateableReason : Option String
  filenameWritable : Bool
  dirWritable : Bool
  variant : String
  oldExists : Bool
  removeOldOk : Bool
  download : Option String
  releaseHash : Option String
  sha256hex : String → String
  writeNewOk : Bool
  rename1Ok : Bool
  rename2Ok : Bool
  rollbackOk : Bool
  removeOldFinalOk : Bool
  chmodOk : Bool

/-- What one run of `Updater.update` did: its return behaviour, whether
`_report_error` ran (setting the retcode to 100), whether the missing-hash
warning ran, and which file-system mutations happened: the new file written
(`open(new_filename, "wb")` succeeded), the rename of the current executable
to the `.old` backup, the rename of the new file onto the current path, and
the rollback rename of the backup onto the current path. -/
structure UpdateOutcome where
  result : PyRet
  errorReported : Bool := false
  warnedNoHash : Bool := false
  wroteNewFile : Bool := false
  renamedCurrentToOld : Bool := false
  renamedNewToCurrent : Bool := false
  rolledBack : Bool := false
  successMsg : Bool := false
deriving Repr, DecidableEq

/-- `update.py:348-365`: the tail of `Updater.update` after the replacement
has fully succeeded. On Windows-style variants a deferred deletion of the
backup is registered and the success message is printed. Otherwise, when a
backup path was in use, the backup is removed (failure only reports) and the
permission bits restored (failure reports and returns `None`); then the
success message is printed and `True` returned. `warned` and `renamed` carry
whether the missing-hash warning ran and whether the two renames were
performed (`renamed = false` exactly on the in-place `zip` path). -/
def finishPhase (env : UpdateEnv) (warned renamed : Bool) : UpdateOutcome :=
  if pyStartsWith env.variant "win" || env.variant = "py2exe" then
    { result := PyRet.val (some true), warnedNoHash := warned,
      wroteNewFile := true, renamedCurrentToOld := renamed,
      renamedNewToCurrent := renamed, successMsg := true }
  else if renamed then
    if env.chmodOk then
      { result := PyRet.val (some true), errorReported := ! env.removeOldFinalOk,
        warnedNoHash := warned, wroteNewFile := true,
        renamedCurrentToOld := true, renamedNewToCurrent := true,
        successMsg := true }
    else
      { result := PyRet.val none, errorReported := true, warnedNoHash := warned,
        wroteNewFile := true, renamedCurrentToOld := true,
        renamedNewToCurrent := true }
  else
    { result := PyRet.val (some true), warnedNoHash := warned,
      wroteNewFile := true, successMsg := true }

/-- `update.py:329-346` continued from the checksum step: write the new file
(failure reports a permission error and returns `None`), then, unless the
variant is the in-place `zip`, rename `current -> old` (failure reports and
returns `None`) and `new -> current` (failure reports, then returns the
result of the rollback rename `old -> current`, whose own failure would
propagate as an uncaught exception). -/
def writeAndReplace (env : UpdateEnv) (warned : Bool) : UpdateOutcome :=
  if ! env.writeNewOk then
    { result := PyRet.val none, errorReported := true, warnedNoHash := warned }
  else if env.variant = "zip" then
    finishPhase env warned false
  else if ! env.rename1Ok then
    { result := PyRet.val none, errorReported := true, warnedNoHash := warned,
      wroteNewFile := true }
  else if ! env.rename2Ok then
    if env.rollbackOk then
      { result := PyRet.val none, errorReported := true, warnedNoHash := warned,
        wroteNewFile := true, renamedCurrentToOld := true, rolledBack := true }
    else
      { result := PyRet.raised, errorReported := true, warnedNoHash := warned,
        wroteNewFile := true, renamedCurrentToOld := true }
  else
    finishPhase env warned true

/-- `Updater.update` (`update.py:289-365`), as a function of the oracle
environment. In order: `check_update` falsy returns `None`;
`is_non_updateable` reports and returns `None`; unwritable executable or
directory reports and returns `None`; a stale backup that exists but cannot
be removed reports and returns `None` (for `zip` the backup path is `None`
and `os.path.exists` is asked about the empty string, always false); a
download failure reports a network error and returns `None`; a raising
`release_hash` only warns, while an obtained digest that differs from the
SHA-256 of the downloaded bytes reports a verification network error and
returns `None` before anything is written; then `writeAndReplace`. -/
def update (env : UpdateEnv) : UpdateOutcome :=
  if ! env.check_ok then
    { result := PyRet.val none }
  else if env.nonUpdateableReason.isSome then
    { result := PyRet.val none, errorReported := true }
  else if ! env.filenameWritable then
    { result := PyRet.val none, errorReported := true }
  else if ! env.dirWritable then
    { result := PyRet.val none, errorReported := true }
  else if env.variant ≠ "zip" && env.oldExists && ! env.removeOldOk then
    { result := PyRet.val none, errorReported := true }
  else
    match env.download with
    | none => { result := PyRet.val none, errorReported := true }
    | some content =>
      match env.releaseHash with
      | none => writeAndReplace env true
      | some expected =>
        if env.sha256hex content ≠ expected then
          { result := PyRet.val none, errorReported := true }
        else
          writeAndReplace env false

/-- C4: target-string parsing splits on the last `@`; a bare known channel
name is read as channel-only with non-exact tag `latest`; an explicit tag is
exact (the code stores it with the GitHub API prefix `tags/`); a bare string
that is not a known channel becomes an exact tag on the current build's
channel. -/
theorem c4_target_parsing (CHANNEL : String) :
    parseTarget CHANNEL (some "nightly") = ⟨"nightly", "latest", false⟩
  ∧ parseTarget CHANNEL (some "nightly@2024.01.01")
      = ⟨"nightly", "tags/2024.01.01", true⟩
  ∧ parseTarget CHANNEL (some "2024.01.01") = ⟨CHANNEL, "tags/2024.01.01", true⟩
  ∧ parseTarget CHANNEL (some "a@b@c") = ⟨"a@b", "tags/c", true⟩ :=
  ⟨rfl, rfl, rfl, rfl⟩

/-- C4 witness: the parsing facts at the build channel `stable`. -/
theorem c4_target_parsing_witness :
    parseTarget "stable" (some "nightly") = ⟨"nightly", "latest", false⟩
  ∧ parseTarget "stable" (some "nightly@2024.01.01")
      = ⟨"nightly", "tags/2024.01.01", true⟩
  ∧ parseTarget "stable" (some "2024.01.01") = ⟨"stable", "tags/2024.01.01", true⟩
  ∧ parseTarget "stable" (some "a@b@c") = ⟨"a@b", "tags/c", true⟩ :=
  c4_target_parsing "stable"

/-- C2: `_get_version_info` does NOT fetch the metadata of the tag it is
asked for: with an explicitly targeted tag `tags/2024.01.01`, the call for
tag `latest` (the one `_download` makes for the `_update_spec` lock file)
builds the URL of the target tag's release, not of `latest` — the `tag`
argument is ignored. -/
theorem c2_version_info_url_ignores_tag :
    get_version_info_url "Grub4K/actions-test" "tags/2024.01.01" "latest"
      = "https://api.github.com/repos/Grub4K/actions-test/releases/tags/2024.01.01"
  ∧ get_version_info_url "Grub4K/actions-test" "tags/2024.01.01" "latest"
      ≠ "https://api.github.com/repos/Grub4K/actions-test/releases/latest" := by
  constructor
  · rfl
  · decide

/-- C9: for the requested bare numeric tag `2023.1.1` (below
`WARN_BEFORE_TAG = (2023, 3, 2)`), the downgrade check's regex matches the
de-prefixed tag, but `version_tuple` is then applied to the full
`tags/2023.1.1` string, so the constructor raises an uncaught `ValueError`
(`none`) instead of emitting the warning and completing. -/
theorem c9_downgrade_warning_raises :
    numericDotted (dropChars "tags/2023.1.1" 5) = true
  ∧ init_warn_check "tags/2023.1.1" = none := by
  constructor
  · decide
  · decide

/-- C3 counterexample: with current channel `stable` and target channel
`nightly`, a current version numerically far above the candidate still yields
`has_update = true` — the claim that `has_update` is never reported across
channels is false. -/
theorem c3_cross_channel_counterexample :
    has_update "stable" "nightly" false "2024.05.01" "2024.01.01" = some true := by
  decide

/-- C3 amended: across differing channels `_version_compare` returns `False`
("no relation"), so `has_update = not _version_compare(...)` is ALWAYS true,
for every pair of version strings regardless of numeric ordering. -/
theorem c3_cross_channel_always_update (CHANNEL target_channel : String)
    (exact : Bool) (a b : String) (h : CHANNEL ≠ target_channel) :
    version_compare CHANNEL target_channel exact a b = some false
  ∧ has_update CHANNEL target_channel exact a b = some true := by
  constructor
  · simp [version_compare, h]
  · simp [has_update, version_compare, h]

/-- C3 amended witness: concrete cross-channel pair. -/
theorem c3_cross_channel_always_update_witness :
    version_compare "stable" "nightly" true "2024.01.01" "2024.05.01" = some false
  ∧ has_update "stable" "nightly" true "2024.01.01" "2024.05.01" = some true :=
  c3_cross_channel_always_update "stable" "nightly" true "2024.01.01" "2024.05.01"
    (by decide)

/-- C7: on the same channel, for parseable versions, `has_update` is true
exactly when the candidate's tuple is not equal to the current's in exact
mode, and exactly when the candidate's tuple is strictly greater than the
current's (`tupleLt current candidate`) in non-exact mode. -/
theorem c7_same_channel_compare (CHANNEL : String) (exact : Bool)
    (current candidate : String) (tc tn : List Nat)
    (hc : version_tuple current = some tc) (hn : version_tuple candidate = some tn) :
    has_update CHANNEL CHANNEL exact current candidate
      = some (if exact then ! (tc == tn) else tupleLt tc tn) := by
  simp [has_update, version_compare, hc, hn]
  cases exact <;> simp

/-- C7 witness: `2024.01.01 -> 2024.03.01` on one channel, non-exact mode. -/
theorem c7_same_channel_compare_witness :
    has_update "stable" "stable" false "2024.01.01" "2024.03.01"
      = some (if false then ! ([2024, 1, 1] == [2024, 3, 1])
              else tupleLt [2024, 1, 1] [2024, 3, 1]) :=
  c7_same_channel_compare "stable" false "2024.01.01" "2024.03.01"
    [2024, 1, 1] [2024, 3, 1] (by decide) (by decide)

/-- C1 counterexample: with no explicit target tag and an identifier matching
both lock lines, `_tag` resolves to the FIRST rule's tag `tags/2024.01.01`,
not to `2024.02.01` as the claim states. -/
theorem c1_lock_counterexample :
    tag_method "stable" "stable" false "2023.01.01" "2024.03.01" reMatchLinux
      "linux_exe stable CPython 3.11.0-linux-x86_64"
      ["lock 2024.01.01 .*-linux.*", "lock 2024.02.01 .*-linux.*"] "latest"
      = some "tags/2024.01.01"
  ∧ tag_method "stable" "stable" false "2023.01.01" "2024.03.01" reMatchLinux
      "linux_exe stable CPython 3.11.0-linux-x86_64"
      ["lock 2024.01.01 .*-linux.*", "lock 2024.02.01 .*-linux.*"] "latest"
      ≠ some "tags/2024.02.01" := by
  constructor
  · decide
  · decide

/-- C1 amended: with no explicit target tag the FIRST matching rule in file
order wins: for the lock lines `lock 2024.01.01 .*-linux.*` followed by
`lock 2024.02.01 .*-linux.*` and any identifier matching the pattern, `_tag`
resolves to `tags/2024.01.01` (the loop returns on the first match). -/
theorem c1_first_lock_wins (rmatch : String → String → Bool)
    (CHANNEL current latest identifier : String)
    (hm : rmatch ".*-linux.*" identifier = true)
    (hv : version_compare CHANNEL CHANNEL false current latest = some false) :
    tag_method CHANNEL CHANNEL false current latest rmatch identifier
      ["lock 2024.01.01 .*-linux.*", "lock 2024.02.01 .*-linux.*"] "latest"
      = some "tags/2024.01.01" := by
  have hs : pyStartsWith "lock 2024.01.01 .*-linux.*" "lock " = true := by decide
  have h1 : pySplitSpace2 "lock 2024.01.01 .*-linux.*"
      = ["lock", "2024.01.01", ".*-linux.*"] := by decide
  simp [tag_method, hv, tagLoop, hs, h1, hm]

/-- C1 amended witness: the concrete Linux identifier under the concrete
regex model. -/
theorem c1_first_lock_wins_witness :
    tag_method "stable" "stable" false "2023.01.01" "2024.03.01" reMatchLinux
      "linux_exe stable CPython 3.11.0-linux-x86_64"
      ["lock 2024.01.01 .*-linux.*", "lock 2024.02.01 .*-linux.*"] "latest"
      = some "tags/2024.01.01" :=
  c1_first_lock_wins reMatchLinux "stable" "2023.01.01" "2024.03.01"
    "linux_exe stable CPython 3.11.0-linux-x86_64" (by decide) (by decide)

/-- C8 counterexample: with the explicit target tag `tags/2024.01.01` and one
matching lock rule whose tag `abc` does not parse as a version, `_tag`
resolves to `tags/abc` — it does NOT skip the rule and fall back to the
requested tag as the claim states. -/
theorem c8_unparseable_lock_counterexample :
    tag_method "stable" "stable" true "2024.01.01" "2024.03.01" reMatchLinux
      "linux_exe stable CPython 3.11.0-linux-x86_64"
      ["lock abc .*-linux.*"] "tags/2024.01.01"
      = some "tags/abc"
  ∧ tag_method "stable" "stable" true "2024.01.01" "2024.03.01" reMatchLinux
      "linux_exe stable CPython 3.11.0-linux-x86_64"
      ["lock abc .*-linux.*"] "tags/2024.01.01"
      ≠ some "tags/2024.01.01" := by
  constructor
  · decide
  · decide

/-- C8 amended: when an explicit target tag was requested and a matching lock
rule's tag (or the requested tag) fails to parse as a version, the
`ValueError` is swallowed and the rule IS applied: evaluation stops at that
rule and resolution is forced to its tag, with the remaining rules never
scanned. -/
theorem c8_unparseable_lock_applies (rmatch : String → String → Bool)
    (identifier line tag pattern target_tag : String) (rest : List String)
    (hstart : pyStartsWith line "lock " = true)
    (hsplit : pySplitSpace2 line = ["lock", tag, pattern])
    (hmatch : rmatch pattern identifier = true)
    (hexplicit : target_tag ≠ "latest")
    (hparse : version_tuple tag = none ∨ version_tuple (dropChars target_tag 5) = none) :
    tagLoop rmatch identifier target_tag (line :: rest) = some ("tags/" ++ tag) := by
  rcases hparse with hp | hp
  · simp [tagLoop, hstart, hsplit, hmatch, hexplicit, hp]
  · cases h2 : version_tuple tag <;>
      simp [tagLoop, hstart, hsplit, hmatch, hexplicit, hp, h2]

/-- C8 amended witness: unparseable lock tag `abc` against the explicit
target `tags/2024.01.01`. -/
theorem c8_unparseable_lock_applies_witness :
    tagLoop (fun _ _ => true) "ident" "tags/2024.01.01" ["lock abc .*"]
      = some ("tags/" ++ "abc") :=
  c8_unparseable_lock_applies (fun _ _ => true) "ident" "lock abc .*" "abc" ".*"
    "tags/2024.01.01" [] (by decide) (by decide) rfl (by decide) (Or.inl (by decide))

/-- Helper: result/flag facts about the replacement tail `finishPhase`:
returning `True` coincides with printing the success message, `False` is
never returned, the new file was written, and a `True` return on a path with
a backup implies the second rename happened. -/
theorem finishPhase_spec (env : UpdateEnv) (w r : Bool) :
    ((finishPhase env w r).result = PyRet.val (some true)
      ↔ (finishPhase env w r).successMsg = true)
  ∧ (finishPhase env w r).result ≠ PyRet.val (some false)
  ∧ (finishPhase env w r).wroteNewFile = true
  ∧ ((finishPhase env w r).result = PyRet.val (some true) →
      r = false ∨ (finishPhase env w r).renamedNewToCurrent = true) := by
  unfold finishPhase
  repeat' split
  all_goals simp_all

/-- Helper: the same facts lifted through `writeAndReplace`. -/
theorem writeAndReplace_spec (env : UpdateEnv) (w : Bool) :
    ((writeAndReplace env w).result = PyRet.val (some true)
      ↔ (writeAndReplace env w).successMsg = true)
  ∧ (writeAndReplace env w).result ≠ PyRet.val (some false)
  ∧ ((writeAndReplace env w).result = PyRet.val (some true) →
      (writeAndReplace env w).wroteNewFile = true
      ∧ (env.variant = "zip" ∨ (writeAndReplace env w).renamedNewToCurrent = true)) := by
  by_cases hw : env.writeNewOk = true
  · by_cases hz : env.variant = "zip"
    · obtain ⟨a, b, c, d⟩ := finishPhase_spec env w false
      simp only [writeAndReplace, hw, hz, Bool.not_true, if_true, if_false]
      simp only [Bool.false_eq_true, if_false, if_true]
      exact ⟨a, b, fun h => ⟨c, Or.inl trivial⟩⟩
    · by_cases h1 : env.rename1Ok = true
      · by_cases h2 : env.rename2Ok = true
        · obtain ⟨a, b, c, d⟩ := finishPhase_spec env w true
          simp only [writeAndReplace, hw, hz, h1, h2, Bool.not_true,
            Bool.false_eq_true, if_false, if_true]
          exact ⟨a, b, fun h => ⟨c, Or.inr ((d h).resolve_left (by simp))⟩⟩
        · by_cases hrb : env.rollbackOk = true
          · simp [writeAndReplace, hw, hz, h1, h2, hrb]
          · simp [writeAndReplace, hw, hz, h1, h2, hrb]
      · simp [writeAndReplace, hw, hz, h1]
  · simp [writeAndReplace, hw]

set_option maxHeartbeats 1000000 in
/-- C10: `Updater.update` returns `True` exactly when it reached the final
success message; a returned `False` is impossible (every failure path
returns `None` after reporting, and a failing rollback rename propagates as
an exception, returning nothing); and a `True` return implies the new file
was written and, except for the in-place `zip` variant, the new executable
was renamed onto the current path. `run_update` returns this same value. -/
theorem c10_update_result (env : UpdateEnv) :
    ((update env).result = PyRet.val (some true) ↔ (update env).successMsg = true)
  ∧ (update env).result ≠ PyRet.val (some false)
  ∧ ((update env).result = PyRet.val (some true) →
      (update env).wroteNewFile = true
      ∧ (env.variant = "zip" ∨ (update env).renamedNewToCurrent = true)) := by
  unfold update
  repeat' split
  all_goals first
    | exact writeAndReplace_spec env true
    | exact writeAndReplace_spec env false
    | simp

/-- Oracle environment of a fully successful non-zip update run. -/
def envSuccess : UpdateEnv :=
  { check_ok := true, nonUpdateableReason := none, filenameWritable := true,
    dirWritable := true, variant := "linux_exe", oldExists := false,
    removeOldOk := true, download := some "NEWBIN", releaseHash := none,
    sha256hex := fun _ => "0000", writeNewOk := true, rename1Ok := true,
    rename2Ok := true, rollbackOk := true, removeOldFinalOk := true,
    chmodOk := true }

/-- C10 witness: the result facts at a concrete successful environment. -/
theorem c10_update_result_witness :
    ((update envSuccess).result = PyRet.val (some true)
      ↔ (update envSuccess).successMsg = true)
  ∧ (update envSuccess).result ≠ PyRet.val (some false)
  ∧ ((update envSuccess).result = PyRet.val (some true) →
      (update envSuccess).wroteNewFile = true
      ∧ (envSuccess.variant = "zip"
         ∨ (update envSuccess).renamedNewToCurrent = true)) :=
  c10_update_result envSuccess

/-- Helper: the warning flag and the write flag of `finishPhase`. -/
theorem finishPhase_flags (env : UpdateEnv) (w r : Bool) :
    (finishPhase env w r).warnedNoHash = w
  ∧ (finishPhase env w r).wroteNewFile = true := by
  unfold finishPhase
  repeat' split
  all_goals simp

/-- Helper: the warning flag and the write flag of `writeAndReplace`. -/
theorem writeAndReplace_flags (env : UpdateEnv) (w : Bool) :
    (writeAndReplace env w).warnedNoHash = w
  ∧ (writeAndReplace env w).wroteNewFile = env.writeNewOk := by
  by_cases hw : env.writeNewOk = true
  · by_cases hz : env.variant = "zip"
    · obtain ⟨a, b⟩ := finishPhase_flags env w false
      simp only [writeAndReplace, hw, hz, Bool.not_true, if_true, if_false]
      simp only [Bool.false_eq_true, if_false, if_true]
      exact ⟨a, b⟩
    · by_cases h1 : env.rename1Ok = true
      · by_cases h2 : env.rename2Ok = true
        · obtain ⟨a, b⟩ := finishPhase_flags env w true
          simp only [writeAndReplace, hw, hz, h1, h2, Bool.not_true,
            Bool.false_eq_true, if_false, if_true]
          exact ⟨a, b⟩
        · by_cases hrb : env.rollbackOk = true
          · simp [writeAndReplace, hw, hz, h1, h2, hrb]
          · simp [writeAndReplace, hw, hz, h1, h2, hrb]
      · simp [writeAndReplace, hw, hz, h1]
  · simp [writeAndReplace, hw]

/-- Helper: a run whose preconditions pass, whose download succeeds and whose
`release_hash` raises reduces to `writeAndReplace` with the warning flag
set. -/
theorem update_eq_war_nohash (env : UpdateEnv) (content : String)
    (h1 : env.check_ok = true) (h2 : env.nonUpdateableReason = none)
    (h3 : env.filenameWritable = true) (h4 : env.dirWritable = true)
    (h5 : env.oldExists = false ∨ env.removeOldOk = true ∨ env.variant = "zip")
    (h6 : env.download = some content) (h7 : env.releaseHash = none) :
    update env = writeAndReplace env true := by
  rcases h5 with h | h | h <;>
    (unfold update; simp [h1, h2, h3, h4, h, h6, h7])

/-- C5: on a run that reaches the checksum step, (a) an obtained digest that
differs from the SHA-256 of the downloaded bytes aborts with an error report
and `None` before the new file is written and before any rename — the
outcome record is exactly the no-mutation failure record; (b) a raising
`release_hash` (missing manifest or entry) only emits the non-fatal warning
and execution proceeds to the write step. -/
theorem c5_checksum_abort (env env2 : UpdateEnv) (content content2 expected : String)
    (h1 : env.check_ok = true) (h2 : env.nonUpdateableReason = none)
    (h3 : env.filenameWritable = true) (h4 : env.dirWritable = true)
    (h5 : env.oldExists = false ∨ env.removeOldOk = true ∨ env.variant = "zip")
    (h6 : env.download = some content)
    (h7 : env.releaseHash = some expected)
    (h8 : env.sha256hex content ≠ expected)
    (g1 : env2.check_ok = true) (g2 : env2.nonUpdateableReason = none)
    (g3 : env2.filenameWritable = true) (g4 : env2.dirWritable = true)
    (g5 : env2.oldExists = false ∨ env2.removeOldOk = true ∨ env2.variant = "zip")
    (g6 : env2.download = some content2) (g7 : env2.releaseHash = none) :
    update env = { result := PyRet.val none, errorReported := true }
  ∧ (update env2).warnedNoHash = true
  ∧ (update env2).wroteNewFile = env2.writeNewOk := by
  refine ⟨?_, ?_, ?_⟩
  · rcases h5 with h | h | h <;>
      (unfold update; simp [h1, h2, h3, h4, h, h6, h7, h8])
  · rw [update_eq_war_nohash env2 content2 g1 g2 g3 g4 g5 g6 g7]
    exact (writeAndReplace_flags env2 true).1
  · rw [update_eq_war_nohash env2 content2 g1 g2 g3 g4 g5 g6 g7]
    exact (writeAndReplace_flags env2 true).2

/-- Oracle environment where the obtained digest mismatches the download. -/
def envBadHash : UpdateEnv :=
  { check_ok := true, nonUpdateableReason := none, filenameWritable := true,
    dirWritable := true, variant := "linux_exe", oldExists := false,
    removeOldOk := true, download := some "NEWBIN", releaseHash := some "feed",
    sha256hex := fun _ => "0000", writeNewOk := true, rename1Ok := true,
    rename2Ok := true, rollbackOk := true, removeOldFinalOk := true,
    chmodOk := true }

/-- C5 witness: concrete mismatching digest aborts with no mutation; the
concrete hashless run warns and proceeds. -/
theorem c5_checksum_abort_witness :
    update envBadHash = { result := PyRet.val none, errorReported := true }
  ∧ (update envSuccess).warnedNoHash = true
  ∧ (update envSuccess).wroteNewFile = envSuccess.writeNewOk :=
  c5_checksum_abort envBadHash envSuccess "NEWBIN" "NEWBIN" "feed"
    rfl rfl rfl rfl (Or.inl rfl) rfl rfl (by decide)
    rfl rfl rfl rfl (Or.inl rfl) rfl rfl

/-- C6: when the second rename (`new -> current`) fails after the current
executable was renamed to the backup, the error is reported, the rollback
rename restores the backup onto the current path, and the call returns
`None` — a non-success result even though the rollback succeeded (the
outcome record shows the rollback and no `renamedNewToCurrent`, no success
message). -/
theorem c6_rollback_reported_failed (env : UpdateEnv) (content : String)
    (h1 : env.check_ok = true) (h2 : env.nonUpdateableReason = none)
    (h3 : env.filenameWritable = true) (h4 : env.dirWritable = true)
    (h5 : env.oldExists = false ∨ env.removeOldOk = true)
    (h6 : env.download = some content) (h7 : env.releaseHash = none)
    (h8 : env.writeNewOk = true) (h9 : env.variant ≠ "zip")
    (h10 : env.rename1Ok = true) (h11 : env.rename2Ok = false)
    (h12 : env.rollbackOk = true) :
    update env = { result := PyRet.val none, errorReported := true,
                   warnedNoHash := true, wroteNewFile := true,
                   renamedCurrentToOld := true, rolledBack := true } := by
  rw [update_eq_war_nohash env content h1 h2 h3 h4
    (h5.elim (fun h => Or.inl h) (fun h => Or.inr (Or.inl h))) h6 h7]
  unfold writeAndReplace
  simp [h8, h9, h10, h11, h12]

/-- Oracle environment where only the second rename fails. -/
def envRename2Fails : UpdateEnv :=
  { check_ok := true, nonUpdateableReason := none, filenameWritable := true,
    dirWritable := true, variant := "linux_exe", oldExists := false,
    removeOldOk := true, download := some "NEWBIN", releaseHash := none,
    sha256hex := fun _ => "0000", writeNewOk := true, rename1Ok := true,
    rename2Ok := false, rollbackOk := true, removeOldFinalOk := true,
    chmodOk := true }

/-- C6 witness: the concrete failed-swap run rolls back and reports failure. -/
theorem c6_rollback_reported_failed_witness :
    update envRename2Fails
      = { result := PyRet.val none, errorReported := true,
          warnedNoHash := true, wroteNewFile := true,
          renamedCurrentToOld := true, rolledBack := true } :=
  c6_rollback_reported_failed envRename2Fails "NEWBIN"
    rfl rfl rfl rfl (Or.inl rfl) rfl rfl rfl (by decide) rfl rfl rfl

end UpdateSpec
